import Mathlib

/-! Verification of uhc-auth-proxy: identity extraction, request handler and
outbound headers.

A shallow embedding of `server/server.go` (`getClusterID`, `getToken`,
`RootHandler`) and of `requests/client/wrapper.go` (`HTTPWrapper.AddHeaders`).

Go strings are modelled by Lean strings, read through their character lists.
Every literal the program searches for (`" "`, `support-operator/`, `cluster/`,
`Bearer `) is ASCII, so searching by character and searching by byte agree.
-/

namespace UhcAuthProxy

/-! ## The parts of package `strings` the program calls -/

/-- Go `strings.HasPrefix`: `len(s) >= len(prefix) && s[0:len(prefix)] == prefix`. -/
def HasPrefix (s pre : String) : Bool :=
  decide (pre.data.length ≤ s.data.length) && decide (s.data.take pre.data.length = pre.data)

/-- Go `strings.TrimPrefix`: `if HasPrefix(s, prefix) { return s[len(prefix):] }; return s`. -/
def TrimPrefix (s pre : String) : String :=
  if HasPrefix s pre then ⟨s.data.drop pre.data.length⟩ else s

/-- Position of the first occurrence of `sep` in a character list, counted from `i`. -/
def indexFrom (sep : List Char) : List Char → Nat → Option Nat
  | [], i => if sep = [] then some i else none
  | c :: t, i => if sep.isPrefixOf (c :: t) then some i else indexFrom sep t (i + 1)

/-- Go `strings.Index`: the index of the first instance of `sep` in `s`;
`none` stands for the result `-1`. -/
def Index (s sep : String) : Option Nat :=
  indexFrom sep.data s.data 0

/-- The loop of Go `strings.genSplit` with `sepSave = 0`: `k` is the number of
separators that may still be consumed (`n - 1 - i`), and the last slot receives
the unsplit remainder. -/
def genSplitLoop (sep : String) : Nat → String → List String
  | 0, s => [s]
  | k + 1, s =>
    match Index s sep with
    | none => [s]
    | some m => ⟨s.data.take m⟩ :: genSplitLoop sep k ⟨s.data.drop (m + sep.data.length)⟩

/-- Go `strings.SplitN(s, sep, n)` for a non-empty separator and `n ≥ 0`, the
only way the program calls it (`sep = " "`, `n = 2`): `n = 0` gives no
substrings, otherwise at most `n` substrings, the last being the remainder. -/
def SplitN (s sep : String) (n : Nat) : List String :=
  if n = 0 then [] else genSplitLoop sep (n - 1) s

/-! ## Results of Go functions -/

/-- A Go run-time panic: indexing a slice out of range, or assigning to an entry
of a nil map. -/
inductive Panic where
  | indexOutOfRange (index length : Nat)
  | nilMapAssignment
  deriving DecidableEq, Repr

deriving instance DecidableEq for Except

/-- Go slice indexing `a[i]`: panics when `i` is not below `len(a)`. -/
def sliceIndex (a : List String) (i : Nat) : Except Panic String :=
  match a.get? i with
  | some x => .ok x
  | none => .error (.indexOutOfRange i a.length)

/-! ## `server/server.go`

A Go result `(string, error)` is the pair of the string and the message of the
error, `none` for `nil`. -/

/-- Source `getClusterID`: returns the cluster id from the user agent string used
by the support operator, `support-operator/commit cluster/cluster_id`. -/
def getClusterID (userAgent : String) : Except Panic (String × Option String) :=
  let spl := SplitN userAgent " " 2
  (sliceIndex spl 0).bind fun spl0 =>
    if !HasPrefix spl0 "support-operator/" then
      .ok ("", some "Invalid user-agent")
    else
      (sliceIndex spl 1).bind fun spl1 =>
        if !HasPrefix spl1 "cluster/" then
          .ok ("", some "Invalid user-agent")
        else
          .ok (TrimPrefix spl1 "cluster/", none)

/-- Source `getToken`; the error is `fmt.Errorf("Not a bearer token: '%s'", authorizationHeader)`. -/
def getToken (authorizationHeader : String) : String × Option String :=
  if !HasPrefix authorizationHeader "Bearer " then
    ("", some ("Not a bearer token: '" ++ authorizationHeader ++ "'"))
  else
    (TrimPrefix authorizationHeader "Bearer ", none)

/-! ## HTTP headers (`net/http`, `net/textproto`) -/

/-- Go `textproto.validHeaderFieldByte`: the token characters of RFC 7230. -/
def validHeaderFieldByte (c : Char) : Bool :=
  c.isAlphanum || "!#$%&'*+-.^_`|~".data.contains c

/-- The rewriting loop of Go `textproto.canonicalMIMEHeaderKey`: the first letter
and every letter after a hyphen become upper case, the others lower case. -/
def canonicalLoop : Bool → List Char → List Char
  | _, [] => []
  | upper, c :: t =>
    let c1 := if upper && c.isLower then c.toUpper
      else if !upper && c.isUpper then c.toLower else c
    c1 :: canonicalLoop (c1 == '-') t

/-- Go `textproto.CanonicalMIMEHeaderKey`: a key holding a byte that is not a
token character is returned unchanged. -/
def CanonicalMIMEHeaderKey (s : String) : String :=
  if s.data.all validHeaderFieldByte then ⟨canonicalLoop true s.data⟩ else s

/-- Go `http.Header`, a `map[string][]string`: the values stored under each key,
the empty list for a key the map does not hold. -/
abbrev Header := String → List String

/-- The empty header map. -/
def Header.empty : Header := fun _ => []

/-- Go `Header.Add`: `key = CanonicalMIMEHeaderKey(key); h[key] = append(h[key], value)`. -/
def Header.Add (h : Header) (key value : String) : Header :=
  fun k => if k = CanonicalMIMEHeaderKey key then h k ++ [value] else h k

/-- Go `Header.Get`: the first value stored under the canonical key, `""` when
there is none. -/
def Header.Get (h : Header) (key : String) : String :=
  match h (CanonicalMIMEHeaderKey key) with
  | [] => ""
  | v :: _ => v

/-- A struct field of Go type `http.Header`: the nil map, which is what the zero
value `http.Request` holds, or an initialised map. -/
inductive HeaderField where
  | nil
  | map (m : Header)

/-- Go `Header.Get` through a field: reading the nil map finds no value and
returns `""`. -/
def HeaderField.Get (h : HeaderField) (key : String) : String :=
  match h with
  | .nil => ""
  | .map m => m.Get key

/-- Go `Header.Values`: all the values stored under the canonical key, none in
the nil map. -/
def HeaderField.Values (h : HeaderField) (key : String) : List String :=
  match h with
  | .nil => []
  | .map m => m (CanonicalMIMEHeaderKey key)

/-- Go `Header.Add` through a field: the assignment `h[key] = append(h[key], value)`
panics on the nil map, and updates an initialised map in place. -/
def HeaderField.Add (h : HeaderField) (key value : String) : Except Panic HeaderField :=
  match h with
  | .nil => .error .nilMapAssignment
  | .map m => .ok (.map (m.Add key value))

/-- The part of `*http.Request` the program reads and writes. -/
structure Request where
  Header : HeaderField

/-- Go `http.ResponseWriter` as the handler sees it: the header map `w.Header()`,
the status line once written together with the headers that went out with it,
and the body written so far. -/
structure ResponseWriter where
  header : Header
  status : Option Nat
  headerSent : Header
  body : String

/-- The writer a handler receives for a new request. -/
def ResponseWriter.new : ResponseWriter :=
  { header := Header.empty, status := none, headerSent := Header.empty, body := "" }

/-- Go `w.WriteHeader(code)`: the first call fixes the status and sends the
header map as it is then; later calls change nothing. -/
def ResponseWriter.WriteHeader (w : ResponseWriter) (code : Nat) : ResponseWriter :=
  match w.status with
  | none => { w with status := some code, headerSent := w.header }
  | some _ => w

/-- Go `w.Write(b)`: writes the header with status 200 if none was written, then
appends to the body. -/
def ResponseWriter.Write (w : ResponseWriter) (b : String) : ResponseWriter :=
  let w1 := match w.status with
    | none => w.WriteHeader 200
    | some _ => w
  { w1 with body := w1.body ++ b }

/-! ## `RootHandler` -/

/-- Source `cluster.Registration`, as `RootHandler` builds it. -/
structure Registration where
  ClusterID : String
  AuthorizationToken : String
  deriving DecidableEq, Repr

/-- What `RootHandler` calls outside `server.go`, taken as parameters:
`cluster.GetIdentity(wrapper, reg)`, which may act on the world outside the
process (state `σ`) and returns an identity and an error, and `json.Marshal`,
which returns bytes and an error. -/
structure Collaborators (ι σ : Type) where
  GetIdentity : Registration → σ → (ι × Option String) × σ
  Marshal : ι → String × Option String

/-- State threaded through one run of the handler: the response writer, the
outside world, and the log of the calls made to `cluster.GetIdentity`. -/
structure HandlerState (σ : Type) where
  w : ResponseWriter
  world : σ
  calls : List Registration

/-- One invocation of `cluster.GetIdentity`: runs it on the world and records the call. -/
def invokeGetIdentity {ι σ : Type} (env : Collaborators ι σ) (reg : Registration)
    (st : HandlerState σ) : (ι × Option String) × HandlerState σ :=
  let out := env.GetIdentity reg st.world
  (out.1, { st with world := out.2, calls := st.calls ++ [reg] })

/-- The statements `w.WriteHeader(code); fmt.Fprintf(w, "...", ...)` of a failure branch. -/
def respond {σ : Type} (st : HandlerState σ) (code : Nat) (text : String) : HandlerState σ :=
  { st with w := (st.w.WriteHeader code).Write text }

/-- Source `RootHandler(wrapper)`: the handler it returns, run on a request.
The result is the final state and the panic that ended the run, if any. -/
def RootHandler {ι σ : Type} (env : Collaborators ι σ) (r : Request)
    (st : HandlerState σ) : HandlerState σ × Option Panic :=
  match getClusterID (r.Header.Get "user-agent") with
  | .error p => (st, some p)
  | .ok (_, some err) =>
    (respond st 400 ("Invalid user-agent: '" ++ err ++ "'"), none)
  | .ok (clusterID, none) =>
    match getToken (r.Header.Get "Authorization") with
    | (_, some err) =>
      (respond st 400 ("Invalid authorization header: '" ++ err ++ "'"), none)
    | (token, none) =>
      let reg : Registration := { ClusterID := clusterID, AuthorizationToken := token }
      match invokeGetIdentity env reg st with
      | ((_, some err), st1) =>
        (respond st1 401 ("Unable to get identity: '" ++ err ++ "'"), none)
      | ((ident, none), st1) =>
        match env.Marshal ident with
        | (_, some err) =>
          (respond st1 500
            ("Unable to read identity returned by cluster manager: '" ++ err ++ "' "), none)
        | (b, none) =>
          let w1 : ResponseWriter :=
            { st1.w with header := st1.w.header.Add "Content-Type" "application/json" }
          ({ st1 with w := (w1.WriteHeader 200).Write b }, none)

/-- The state in which the server hands a new request to the handler. -/
def HandlerState.start {σ : Type} (world : σ) : HandlerState σ :=
  { w := ResponseWriter.new, world := world, calls := [] }

/-! ## `requests/client/wrapper.go` -/

/-- Source `HTTPWrapper`. -/
structure HTTPWrapper where
  Token : String

/-- Source `HTTPWrapper.AddHeaders`, documented there as "AddHeaders sets the
client headers, including the auth token": three `req.Header.Add` calls on the
request's header map. The result is the request as the calls leave it, or the
panic of the first call, which leaves the request as it was. -/
def HTTPWrapper.AddHeaders (c : HTTPWrapper) (req : Request) : Except Panic Request :=
  (req.Header.Add "Authorization" ("Bearer " ++ c.Token)).bind fun h1 =>
    (h1.Add "Accept" "application/json").bind fun h2 =>
      (h2.Add "Content-Type" "application/json").bind fun h3 =>
        .ok { req with Header := h3 }

/-- Go `strings.Contains(s, sub)`: `sub` occurs in `s` as a contiguous run. -/
def Contains (s sub : String) : Prop := sub.data <:+: s.data

instance (s sub : String) : Decidable (Contains s sub) := by
  unfold Contains; infer_instance

/-! ## Concrete requests and collaborators used to instantiate the theorems -/

/-- A request carrying the given `User-Agent` and `Authorization` headers. -/
def requestWith (userAgent authorization : String) : Request :=
  { Header := .map ((Header.empty.Add "User-Agent" userAgent).Add "Authorization" authorization) }

/-- An exchanger whose upstream call fails: every call is one round trip on the
world (a counter) and returns the error `connection refused`. -/
def refusingUpstream : Collaborators String Nat :=
  { GetIdentity := fun _ n => (("", some "connection refused"), n + 1)
    Marshal := fun d => (d, none) }

/-- An exchanger that answers every call with a fixed identity document, its own
serialization; every call is one round trip on the world (a counter). -/
def answeringUpstream : Collaborators String Nat :=
  { GetIdentity := fun _ n => (("\x7b\"id\":\"abc123\",\"active\":true\x7d", none), n + 1)
    Marshal := fun d => (d, none) }

/-- An outbound request that already carries an `Authorization` header and a
custom header. -/
def authorizedRequest : Request :=
  { Header := .map ((Header.empty.Add "Authorization" "Bearer old").Add "X-Trace" "7") }

/-! ## Lemmas on the string functions -/

theorem HasPrefix_iff (s pre : String) : HasPrefix s pre = true ↔ ∃ t : String, s = pre ++ t := by
  unfold HasPrefix
  constructor
  · intro h
    simp only [Bool.and_eq_true, decide_eq_true_eq] at h
    refine ⟨⟨s.data.drop pre.data.length⟩, String.ext ?_⟩
    rw [String.data_append]
    calc s.data = s.data.take pre.data.length ++ s.data.drop pre.data.length :=
          (List.take_append_drop _ _).symm
      _ = pre.data ++ s.data.drop pre.data.length := by rw [h.2]
  · rintro ⟨t, rfl⟩
    simp

theorem HasPrefix_append (pre t : String) : HasPrefix (pre ++ t) pre = true :=
  (HasPrefix_iff _ _).2 ⟨t, rfl⟩

theorem TrimPrefix_append (pre t : String) : TrimPrefix (pre ++ t) pre = t := by
  unfold TrimPrefix
  rw [if_pos (HasPrefix_append pre t)]
  apply String.ext
  simp

theorem indexFrom_space_none (a : List Char) (i : Nat) (ha : ' ' ∉ a) :
    indexFrom [' '] a i = none := by
  induction a generalizing i with
  | nil => simp [indexFrom]
  | cons c t ih =>
    have hc : ¬ ' ' = c := fun h => ha (List.mem_cons.2 (Or.inl h))
    have ht : ' ' ∉ t := fun h => ha (List.mem_cons.2 (Or.inr h))
    simp [indexFrom, List.isPrefixOf, hc, Ne.symm hc, ih _ ht]

theorem indexFrom_space_some (a b : List Char) (i : Nat) (ha : ' ' ∉ a) :
    indexFrom [' '] (a ++ ' ' :: b) i = some (i + a.length) := by
  induction a generalizing i with
  | nil => simp [indexFrom, List.isPrefixOf]
  | cons c t ih =>
    have hc : ¬ ' ' = c := fun h => ha (List.mem_cons.2 (Or.inl h))
    have ht : ' ' ∉ t := fun h => ha (List.mem_cons.2 (Or.inr h))
    simp [indexFrom, List.isPrefixOf, hc, Ne.symm hc, ih _ ht]
    omega

/-- A user agent without a space is not split: `SplitN` returns it alone. -/
theorem SplitN_no_space (s : String) (hs : ' ' ∉ s.data) : SplitN s " " 2 = [s] := by
  simp [SplitN, genSplitLoop, Index, indexFrom_space_none _ _ hs]

/-- A user agent is split at its first space, into the text before it and all the text after it. -/
theorem SplitN_first_space (a b : String) (ha : ' ' ∉ a.data) :
    SplitN (a ++ " " ++ b) " " 2 = [a, b] := by
  have h := indexFrom_space_some a.data b.data 0 ha
  simp only [Nat.zero_add] at h
  have hd : List.drop (a.length + 1) (a.data ++ ' ' :: b.data) = b.data := by
    show List.drop (a.data.length + 1) (a.data ++ ' ' :: b.data) = b.data
    rw [List.drop_append_eq_append_drop]
    simp
  simp [SplitN, genSplitLoop, Index, h, hd]

/-- Every string either has no space or is cut by its first space. -/
theorem space_cases (s : String) :
    ' ' ∉ s.data ∨ ∃ a b : String, ' ' ∉ a.data ∧ s = a ++ " " ++ b := by
  by_cases h : ' ' ∈ s.data
  · right
    obtain ⟨l, r, hs, hl⟩ := List.eq_append_cons_of_mem h
    exact ⟨⟨l⟩, ⟨r⟩, hl, String.ext (by simp [hs])⟩
  · exact Or.inl h

/-! ## `getClusterID` on the two shapes of a user agent -/

/-- On a user agent without a space only `spl[0]` exists: a wrong first prefix is
an error, a right one reaches `spl[1]`, which is out of range. -/
theorem getClusterID_no_space (s : String) (hs : ' ' ∉ s.data) :
    getClusterID s =
      if HasPrefix s "support-operator/" then .error (.indexOutOfRange 1 1)
      else .ok ("", some "Invalid user-agent") := by
  unfold getClusterID
  rw [SplitN_no_space s hs]
  by_cases h : HasPrefix s "support-operator/" = true
  · simp [sliceIndex, Except.bind, h]
  · simp [sliceIndex, Except.bind, h]

/-- On a user agent cut by its first space into `a` and `b`, both prefixes are
tested and the identifier is `b` without `cluster/`. -/
theorem getClusterID_split (a b : String) (ha : ' ' ∉ a.data) :
    getClusterID (a ++ " " ++ b) =
      if HasPrefix a "support-operator/" = true ∧ HasPrefix b "cluster/" = true then
        .ok (TrimPrefix b "cluster/", none)
      else .ok ("", some "Invalid user-agent") := by
  unfold getClusterID
  rw [SplitN_first_space a b ha]
  by_cases h1 : HasPrefix a "support-operator/" = true
  · by_cases h2 : HasPrefix b "cluster/" = true
    · simp [sliceIndex, Except.bind, h1, h2]
    · simp [sliceIndex, Except.bind, h1, h2]
  · simp [sliceIndex, Except.bind, h1]

/-- A user agent made of the two expected tokens is accepted and yields the text
after `cluster/`. -/
theorem getClusterID_accepts (x y : String) (hx : ' ' ∉ x.data) :
    getClusterID ("support-operator/" ++ x ++ " cluster/" ++ y) = .ok (y, none) := by
  have hs : "support-operator/" ++ x ++ " cluster/" ++ y
      = ("support-operator/" ++ x) ++ " " ++ ("cluster/" ++ y) := by
    apply String.ext
    simp
  have ha : ' ' ∉ ("support-operator/" ++ x).data := by
    rw [String.data_append, List.mem_append]
    rintro (h | h)
    · revert h; decide
    · exact hx h
  rw [hs, getClusterID_split _ _ ha,
    if_pos ⟨HasPrefix_append _ _, HasPrefix_append _ _⟩, TrimPrefix_append]

/-! ## The claims on the identity extractor -/

/-- C1: for every `x` without a space and every `y`, `getClusterID` applied to
`support-operator/` ++ x ++ ` cluster/` ++ y returns `y` and a nil error. -/
theorem getClusterID_pattern (x y : String) (hx : ' ' ∉ x.data) :
    getClusterID ("support-operator/" ++ x ++ " cluster/" ++ y) = .ok (y, none) :=
  getClusterID_accepts x y hx

/-- C1 at the user agent `support-operator/1.2 cluster/abc123` of scenario A. -/
theorem getClusterID_pattern_witness :
    ' ' ∉ "1.2".data ∧
      getClusterID ("support-operator/" ++ "1.2" ++ " cluster/" ++ "abc123")
        = .ok ("abc123", none) :=
  ⟨by decide, getClusterID_pattern "1.2" "abc123" (by decide)⟩

/-- C2: `getToken h` returns token `t` with a nil error exactly when `h` is
`Bearer ` ++ t, and on a header that does not start with `Bearer ` it returns
the empty string and a non-nil error. -/
theorem getToken_spec (h : String) :
    (∀ t : String, getToken h = (t, none) ↔ h = "Bearer " ++ t) ∧
      ((¬ ∃ t : String, h = "Bearer " ++ t) → ∃ e : String, getToken h = ("", some e)) := by
  constructor
  · intro t
    constructor
    · intro ht
      unfold getToken at ht
      by_cases hp : HasPrefix h "Bearer " = true
      · obtain ⟨u, rfl⟩ := (HasPrefix_iff _ _).1 hp
        simp only [hp, Bool.not_true, Bool.false_eq_true, if_false, TrimPrefix_append,
          Prod.mk.injEq, and_true] at ht
        rw [ht]
      · simp [hp] at ht
    · rintro rfl
      simp [getToken, HasPrefix_append, TrimPrefix_append]
  · intro hn
    have hp : ¬ HasPrefix h "Bearer " = true := fun hp => hn ((HasPrefix_iff _ _).1 hp)
    exact ⟨"Not a bearer token: '" ++ h ++ "'", by simp [getToken, hp]⟩

/-- C2 at the headers `Bearer tok1`, `Bearer ` (empty token) and `Basic xyz`. -/
theorem getToken_spec_witness :
    getToken "Bearer tok1" = ("tok1", none) ∧ getToken "Bearer " = ("", none) ∧
      (¬ ∃ t : String, "Basic xyz" = "Bearer " ++ t) ∧
      ∃ e : String, getToken "Basic xyz" = ("", some e) :=
  have hn : ¬ ∃ t : String, "Basic xyz" = "Bearer " ++ t := by
    rintro ⟨t, ht⟩
    have := (HasPrefix_iff "Basic xyz" "Bearer ").2 ⟨t, ht⟩
    revert this
    decide
  ⟨((getToken_spec "Bearer tok1").1 "tok1").2 rfl, ((getToken_spec "Bearer ").1 "").2 rfl,
    hn, (getToken_spec "Basic xyz").2 hn⟩

/-- C3: on a user agent without a space whose text starts with
`support-operator/`, `getClusterID` does not return an error: the index `spl[1]`
is out of range of the one-element split result and the function panics; on the
other user agents without a space it returns the `Invalid user-agent` error. -/
theorem getClusterID_one_token (ua : String) (hs : ' ' ∉ ua.data) :
    SplitN ua " " 2 = [ua] ∧
      ((∃ t : String, ua = "support-operator/" ++ t) →
        getClusterID ua = .error (.indexOutOfRange 1 1)) ∧
      ((¬ ∃ t : String, ua = "support-operator/" ++ t) →
        getClusterID ua = .ok ("", some "Invalid user-agent")) := by
  refine ⟨SplitN_no_space ua hs, fun h => ?_, fun h => ?_⟩
  · rw [getClusterID_no_space ua hs, if_pos ((HasPrefix_iff _ _).2 h)]
  · rw [getClusterID_no_space ua hs, if_neg (fun hp => h ((HasPrefix_iff _ _).1 hp))]

/-- C3 at the user agent `support-operator/1.2`: the call panics. -/
theorem getClusterID_one_token_witness :
    ' ' ∉ "support-operator/1.2".data ∧
      getClusterID "support-operator/1.2" = .error (.indexOutOfRange 1 1) :=
  ⟨by decide,
    (getClusterID_one_token "support-operator/1.2" (by decide)).2.1 ⟨"1.2", by decide⟩⟩

/-- C4: when the text before the first space of a user agent does not start with
`support-operator/`, or the text after that space does not start with
`cluster/`, `getClusterID` returns the `Invalid user-agent` error and the empty
string. -/
theorem getClusterID_wrong_prefix (a b : String) (ha : ' ' ∉ a.data)
    (h : (¬ ∃ t : String, a = "support-operator/" ++ t) ∨ (¬ ∃ t : String, b = "cluster/" ++ t)) :
    getClusterID (a ++ " " ++ b) = .ok ("", some "Invalid user-agent") := by
  rw [getClusterID_split a b ha, if_neg]
  rintro ⟨h1, h2⟩
  rcases h with h | h
  · exact h ((HasPrefix_iff _ _).1 h1)
  · exact h ((HasPrefix_iff _ _).1 h2)

/-- C4 at the user agent `support-operator/1.2 node/abc123` of scenario C. -/
theorem getClusterID_wrong_prefix_witness :
    ' ' ∉ "support-operator/1.2".data ∧ (¬ ∃ t : String, "node/abc123" = "cluster/" ++ t) ∧
      getClusterID ("support-operator/1.2" ++ " " ++ "node/abc123")
        = .ok ("", some "Invalid user-agent") :=
  have hn : ¬ ∃ t : String, "node/abc123" = "cluster/" ++ t := by
    rintro ⟨t, ht⟩
    have := (HasPrefix_iff "node/abc123" "cluster/").2 ⟨t, ht⟩
    revert this
    decide
  ⟨by decide, hn,
    getClusterID_wrong_prefix "support-operator/1.2" "node/abc123" (by decide) (Or.inr hn)⟩

/-- C5, as stated, fails: the identifier returned for
`support-operator/1.2 cluster/a b` contains a space, and the one returned for
`support-operator/1.2 cluster/` is empty. -/
theorem getClusterID_identifier_not_token :
    getClusterID "support-operator/1.2 cluster/a b" = .ok ("a b", none) ∧
      getClusterID "support-operator/1.2 cluster/" = .ok ("", none) ∧
      ¬ (∀ ua id : String, getClusterID ua = .ok (id, none) → id ≠ "" ∧ ' ' ∉ id.data) := by
  refine ⟨by decide, by decide, fun h => ?_⟩
  have h1 := (h "support-operator/1.2 cluster/a b" "a b" (by decide)).2
  revert h1
  decide

/-- C5, amended: `getClusterID` returns identifier `id` exactly for the user
agents of the form `support-operator/` ++ x ++ ` cluster/` ++ id with `x` free of
spaces; the identifier is all the text after the first space and its `cluster/`
prefix, with no condition on `id` itself. -/
theorem getClusterID_ok_shape (ua id : String) :
    getClusterID ua = .ok (id, none) ↔
      ∃ x : String, ' ' ∉ x.data ∧ ua = "support-operator/" ++ x ++ " cluster/" ++ id := by
  constructor
  · intro h
    rcases space_cases ua with hs | ⟨a, b, ha, rfl⟩
    · rw [getClusterID_no_space ua hs] at h
      split at h <;> simp at h
    · rw [getClusterID_split a b ha] at h
      split at h
      · next hp =>
        obtain ⟨x, rfl⟩ := (HasPrefix_iff _ _).1 hp.1
        obtain ⟨y, rfl⟩ := (HasPrefix_iff _ _).1 hp.2
        rw [TrimPrefix_append] at h
        simp only [Except.ok.injEq, Prod.mk.injEq, and_true] at h
        subst h
        refine ⟨x, fun hx => ha ?_, String.ext (by simp)⟩
        rw [String.data_append]
        exact List.mem_append.2 (Or.inr hx)
      · simp at h
  · rintro ⟨x, hx, rfl⟩
    exact getClusterID_accepts x id hx

/-- C5 amended, at `support-operator/1.2 cluster/a b`: the call succeeds with
`a b`, and the user agent has the stated form. -/
theorem getClusterID_ok_shape_witness :
    getClusterID "support-operator/1.2 cluster/a b" = .ok ("a b", none) ∧
      ∃ x : String, ' ' ∉ x.data ∧
        "support-operator/1.2 cluster/a b" = "support-operator/" ++ x ++ " cluster/" ++ "a b" :=
  ⟨by decide, (getClusterID_ok_shape "support-operator/1.2 cluster/a b" "a b").1 (by decide)⟩

/-! ## Lemmas on headers, the response writer and `RootHandler` -/

theorem canonical_user_agent : CanonicalMIMEHeaderKey "user-agent" = "User-Agent" := by decide

theorem requestWith_user_agent (ua auth : String) :
    (requestWith ua auth).Header.Get "user-agent" = ua := by
  have h1 : CanonicalMIMEHeaderKey "User-Agent" = "User-Agent" := by decide
  have h2 : CanonicalMIMEHeaderKey "Authorization" = "Authorization" := by decide
  have h3 : ¬ "User-Agent" = "Authorization" := by decide
  simp [requestWith, HeaderField.Get, Header.Get, Header.Add, Header.empty, canonical_user_agent,
    h1, h2, h3]

theorem requestWith_authorization (ua auth : String) :
    (requestWith ua auth).Header.Get "Authorization" = auth := by
  have h1 : CanonicalMIMEHeaderKey "User-Agent" = "User-Agent" := by decide
  have h2 : CanonicalMIMEHeaderKey "Authorization" = "Authorization" := by decide
  have h3 : ¬ "Authorization" = "User-Agent" := by decide
  simp [requestWith, HeaderField.Get, Header.Get, Header.Add, Header.empty, h1, h2, h3]

theorem empty_append (b : String) : "" ++ b = b := String.ext (by simp)

/-- A failure branch run on a new writer: the status is the code, the body the
text, and no header went out. -/
theorem respond_start {σ : Type} (world : σ) (calls : List Registration) (code : Nat)
    (text : String) :
    respond { w := ResponseWriter.new, world := world, calls := calls } code text
      = { w := { header := Header.empty, status := some code, headerSent := Header.empty,
                 body := text },
          world := world, calls := calls } := by
  simp [respond, ResponseWriter.new, ResponseWriter.WriteHeader, ResponseWriter.Write,
    empty_append]

theorem RootHandler_of_panic {ι σ : Type} (env : Collaborators ι σ) (r : Request)
    (st : HandlerState σ) (p : Panic)
    (h : getClusterID (r.Header.Get "user-agent") = .error p) :
    RootHandler env r st = (st, some p) := by
  simp only [RootHandler, h]

theorem RootHandler_of_bad_user_agent {ι σ : Type} (env : Collaborators ι σ) (r : Request)
    (st : HandlerState σ) (s e : String)
    (h : getClusterID (r.Header.Get "user-agent") = .ok (s, some e)) :
    RootHandler env r st = (respond st 400 ("Invalid user-agent: '" ++ e ++ "'"), none) := by
  simp only [RootHandler, h]

theorem RootHandler_of_bad_authorization {ι σ : Type} (env : Collaborators ι σ) (r : Request)
    (st : HandlerState σ) (clusterID s e : String)
    (h1 : getClusterID (r.Header.Get "user-agent") = .ok (clusterID, none))
    (h2 : getToken (r.Header.Get "Authorization") = (s, some e)) :
    RootHandler env r st
      = (respond st 400 ("Invalid authorization header: '" ++ e ++ "'"), none) := by
  simp only [RootHandler, h1, h2]

theorem RootHandler_of_exchange_error {ι σ : Type} (env : Collaborators ι σ) (r : Request)
    (st : HandlerState σ) (clusterID token e : String) (d : ι) (world1 : σ)
    (h1 : getClusterID (r.Header.Get "user-agent") = .ok (clusterID, none))
    (h2 : getToken (r.Header.Get "Authorization") = (token, none))
    (h3 : env.GetIdentity ⟨clusterID, token⟩ st.world = ((d, some e), world1)) :
    RootHandler env r st
      = (respond { st with world := world1, calls := st.calls ++ [⟨clusterID, token⟩] } 401
          ("Unable to get identity: '" ++ e ++ "'"), none) := by
  simp only [RootHandler, h1, h2, invokeGetIdentity, h3]

theorem RootHandler_of_marshal_error {ι σ : Type} (env : Collaborators ι σ) (r : Request)
    (st : HandlerState σ) (clusterID token b e : String) (d : ι) (world1 : σ)
    (h1 : getClusterID (r.Header.Get "user-agent") = .ok (clusterID, none))
    (h2 : getToken (r.Header.Get "Authorization") = (token, none))
    (h3 : env.GetIdentity ⟨clusterID, token⟩ st.world = ((d, none), world1))
    (h4 : env.Marshal d = (b, some e)) :
    RootHandler env r st
      = (respond { st with world := world1, calls := st.calls ++ [⟨clusterID, token⟩] } 500
          ("Unable to read identity returned by cluster manager: '" ++ e ++ "' "), none) := by
  simp only [RootHandler, h1, h2, invokeGetIdentity, h3, h4]

theorem RootHandler_of_success {ι σ : Type} (env : Collaborators ι σ) (r : Request)
    (st : HandlerState σ) (clusterID token b : String) (d : ι) (world1 : σ)
    (h1 : getClusterID (r.Header.Get "user-agent") = .ok (clusterID, none))
    (h2 : getToken (r.Header.Get "Authorization") = (token, none))
    (h3 : env.GetIdentity ⟨clusterID, token⟩ st.world = ((d, none), world1))
    (h4 : env.Marshal d = (b, none)) :
    RootHandler env r st
      = ({ w := (ResponseWriter.WriteHeader
                  { st.w with header := st.w.header.Add "Content-Type" "application/json" }
                  200).Write b,
           world := world1, calls := st.calls ++ [⟨clusterID, token⟩] }, none) := by
  simp only [RootHandler, h1, h2, invokeGetIdentity, h3, h4]

/-- Once both headers are accepted the exchanger is called exactly once, with the
extracted pair, whatever it and the serializer return. -/
theorem RootHandler_calls {ι σ : Type} (env : Collaborators ι σ) (r : Request)
    (st : HandlerState σ) (clusterID token : String)
    (h1 : getClusterID (r.Header.Get "user-agent") = .ok (clusterID, none))
    (h2 : getToken (r.Header.Get "Authorization") = (token, none)) :
    (RootHandler env r st).1.calls = st.calls ++ [⟨clusterID, token⟩] := by
  rcases h3 : env.GetIdentity ⟨clusterID, token⟩ st.world with ⟨⟨d, _ | e⟩, world1⟩
  · rcases h4 : env.Marshal d with ⟨b, _ | e⟩
    · rw [RootHandler_of_success env r st clusterID token b d world1 h1 h2 h3 h4]
    · rw [RootHandler_of_marshal_error env r st clusterID token b e d world1 h1 h2 h3 h4]
      rfl
  · rw [RootHandler_of_exchange_error env r st clusterID token e d world1 h1 h2 h3]
    rfl

theorem Contains_middle (a h b : String) : Contains (a ++ h ++ b) h :=
  ⟨a.data, b.data, by simp⟩

/-! ## The claims on the request handler -/

/-- C6: at the request with user agent `support-operator/1.2` and Authorization
`Basic xyz`, `getToken` rejects the Authorization header, yet the handler writes
no status and no body: it panics on `spl[1]` inside `getClusterID`, before any
call to the exchanger. -/
theorem RootHandler_panics_before_responding {ι σ : Type} (env : Collaborators ι σ) (world : σ) :
    getToken ((requestWith "support-operator/1.2" "Basic xyz").Header.Get "Authorization")
        = ("", some "Not a bearer token: 'Basic xyz'") ∧
      RootHandler env (requestWith "support-operator/1.2" "Basic xyz") (HandlerState.start world)
        = (HandlerState.start world, some (.indexOutOfRange 1 1)) ∧
      (HandlerState.start world).w.status = none ∧
      (HandlerState.start world).calls = [] := by
  refine ⟨?_, ?_, rfl, rfl⟩
  · rw [requestWith_authorization]
    decide
  · apply RootHandler_of_panic
    rw [requestWith_user_agent]
    decide

/-- C7: when both headers are accepted and the exchanger returns error `e`, the
handler answers 401 with the body `Unable to get identity: 'e'`, which contains
`e`, after exactly one call of the exchanger, with the extracted pair. -/
theorem RootHandler_exchange_error {ι σ : Type} (env : Collaborators ι σ) (r : Request)
    (world world1 : σ) (clusterID token e : String) (d : ι)
    (hua : getClusterID (r.Header.Get "user-agent") = .ok (clusterID, none))
    (hauth : getToken (r.Header.Get "Authorization") = (token, none))
    (hex : env.GetIdentity ⟨clusterID, token⟩ world = ((d, some e), world1)) :
    RootHandler env r (HandlerState.start world)
        = ({ w := { header := Header.empty, status := some 401, headerSent := Header.empty,
                    body := "Unable to get identity: '" ++ e ++ "'" },
             world := world1, calls := [⟨clusterID, token⟩] }, none) ∧
      Contains ("Unable to get identity: '" ++ e ++ "'") e := by
  refine ⟨?_, Contains_middle _ _ _⟩
  rw [RootHandler_of_exchange_error env r (HandlerState.start world) clusterID token e d world1
    hua hauth hex]
  simp only [HandlerState.start, List.nil_append, respond_start]

/-- C7 at scenario E: valid headers and an upstream that refuses the connection. -/
theorem RootHandler_exchange_error_witness :
    (RootHandler refusingUpstream (requestWith "support-operator/1.2 cluster/abc123" "Bearer tok1")
        (HandlerState.start 0)).1.w.status = some 401 ∧
      (RootHandler refusingUpstream (requestWith "support-operator/1.2 cluster/abc123" "Bearer tok1")
        (HandlerState.start 0)).1.w.body = "Unable to get identity: 'connection refused'" ∧
      (RootHandler refusingUpstream (requestWith "support-operator/1.2 cluster/abc123" "Bearer tok1")
        (HandlerState.start 0)).1.calls = [⟨"abc123", "tok1"⟩] ∧
      (RootHandler refusingUpstream (requestWith "support-operator/1.2 cluster/abc123" "Bearer tok1")
        (HandlerState.start 0)).1.world = 1 := by
  have h := (RootHandler_exchange_error refusingUpstream
    (requestWith "support-operator/1.2 cluster/abc123" "Bearer tok1") 0 1 "abc123" "tok1"
    "connection refused" ""
    (by rw [requestWith_user_agent]; decide) (by rw [requestWith_authorization]; decide) rfl).1
  rw [h]
  exact ⟨rfl, by decide, rfl, rfl⟩

/-- C8: for user agent `support-operator/` ++ x ++ ` cluster/` ++ y with `x` a
token (no space) and Authorization `Bearer ` ++ t, the exchanger is called
exactly once, with `ClusterID = y` and `AuthorizationToken = t`; when it returns
identity `d` and `d` serializes to `b`, the response is 200, is sent with the
single `Content-Type` value `application/json`, and its body is `b`. -/
theorem RootHandler_success {ι σ : Type} (env : Collaborators ι σ) (r : Request) (world : σ)
    (x y t : String) (hx : ' ' ∉ x.data)
    (hua : r.Header.Get "user-agent" = "support-operator/" ++ x ++ " cluster/" ++ y)
    (hauth : r.Header.Get "Authorization" = "Bearer " ++ t) :
    (RootHandler env r (HandlerState.start world)).1.calls = [⟨y, t⟩] ∧
      ∀ (d : ι) (world1 : σ) (b : String),
        env.GetIdentity ⟨y, t⟩ world = ((d, none), world1) → env.Marshal d = (b, none) →
        (RootHandler env r (HandlerState.start world)).2 = none ∧
        (RootHandler env r (HandlerState.start world)).1.w.status = some 200 ∧
        (RootHandler env r (HandlerState.start world)).1.w.headerSent "Content-Type"
          = ["application/json"] ∧
        (RootHandler env r (HandlerState.start world)).1.w.headerSent.Get "Content-Type"
          = "application/json" ∧
        (RootHandler env r (HandlerState.start world)).1.w.body = b ∧
        (RootHandler env r (HandlerState.start world)).1.world = world1 := by
  have h1 : getClusterID (r.Header.Get "user-agent") = .ok (y, none) := by
    rw [hua]; exact getClusterID_accepts x y hx
  have h2 : getToken (r.Header.Get "Authorization") = (t, none) := by
    rw [hauth]; simp [getToken, HasPrefix_append, TrimPrefix_append]
  have hc : CanonicalMIMEHeaderKey "Content-Type" = "Content-Type" := by decide
  refine ⟨?_, fun d world1 b h3 h4 => ?_⟩
  · rw [RootHandler_calls env r (HandlerState.start world) y t h1 h2]
    rfl
  · rw [RootHandler_of_success env r (HandlerState.start world) y t b d world1 h1 h2 h3 h4]
    simp [HandlerState.start, ResponseWriter.new, ResponseWriter.WriteHeader,
      ResponseWriter.Write, Header.Add, Header.Get, Header.empty, hc, empty_append]

/-- C8 at scenario F: the upstream answers with a JSON document, relayed as is. -/
theorem RootHandler_success_witness :
    (RootHandler answeringUpstream
        (requestWith "support-operator/1.2 cluster/abc123" "Bearer tok1")
        (HandlerState.start 0)).1.calls = [⟨"abc123", "tok1"⟩] ∧
      (RootHandler answeringUpstream
        (requestWith "support-operator/1.2 cluster/abc123" "Bearer tok1")
        (HandlerState.start 0)).1.w.status = some 200 ∧
      (RootHandler answeringUpstream
        (requestWith "support-operator/1.2 cluster/abc123" "Bearer tok1")
        (HandlerState.start 0)).1.w.headerSent.Get "Content-Type" = "application/json" ∧
      (RootHandler answeringUpstream
        (requestWith "support-operator/1.2 cluster/abc123" "Bearer tok1")
        (HandlerState.start 0)).1.w.body = "\x7b\"id\":\"abc123\",\"active\":true\x7d" :=
  have h := RootHandler_success answeringUpstream
    (requestWith "support-operator/1.2 cluster/abc123" "Bearer tok1") 0 "1.2" "abc123" "tok1"
    (by decide) (by rw [requestWith_user_agent]; decide)
    (by rw [requestWith_authorization]; decide)
  have h2 := h.2 "\x7b\"id\":\"abc123\",\"active\":true\x7d" 1
    "\x7b\"id\":\"abc123\",\"active\":true\x7d" rfl rfl
  ⟨h.1, h2.2.1, h2.2.2.2.1, h2.2.2.2.2.1⟩

/-- What holds of C6 on the code: when `getClusterID` returns an error the
handler answers 400 naming the user agent, and when it returns an identifier and
`getToken` returns an error the handler answers 400 naming the authorization
header; the exchanger is not called in either case. -/
theorem RootHandler_rejects_bad_input {ι σ : Type} (env : Collaborators ι σ) (r : Request)
    (world : σ) :
    (∀ s e : String, getClusterID (r.Header.Get "user-agent") = .ok (s, some e) →
      RootHandler env r (HandlerState.start world)
        = ({ w := { header := Header.empty, status := some 400, headerSent := Header.empty,
                    body := "Invalid user-agent: '" ++ e ++ "'" },
             world := world, calls := [] }, none)) ∧
    (∀ clusterID s e : String,
      getClusterID (r.Header.Get "user-agent") = .ok (clusterID, none) →
      getToken (r.Header.Get "Authorization") = (s, some e) →
      RootHandler env r (HandlerState.start world)
        = ({ w := { header := Header.empty, status := some 400, headerSent := Header.empty,
                    body := "Invalid authorization header: '" ++ e ++ "'" },
             world := world, calls := [] }, none)) := by
  constructor
  · intro s e h
    rw [RootHandler_of_bad_user_agent env r _ s e h]
    simp only [HandlerState.start, respond_start]
  · intro clusterID s e h1 h2
    rw [RootHandler_of_bad_authorization env r _ clusterID s e h1 h2]
    simp only [HandlerState.start, respond_start]

/-! ## The claim on error messages -/

theorem getToken_rejected (h : String) (hn : ¬ ∃ t : String, h = "Bearer " ++ t) :
    getToken h = ("", some ("Not a bearer token: '" ++ h ++ "'")) := by
  have hp : ¬ HasPrefix h "Bearer " = true := fun hp => hn ((HasPrefix_iff _ _).1 hp)
  simp [getToken, hp]

/-- C9, as stated, fails: the error `getToken` returns for the rejected header
`Basic xyz`, and the 400 body the handler writes for it, both contain the header;
and the rejected header `Basic abc` gets a different message. -/
theorem getToken_error_echoes_header :
    getToken "Basic xyz" = ("", some "Not a bearer token: 'Basic xyz'") ∧
      Contains "Not a bearer token: 'Basic xyz'" "Basic xyz" ∧
      RootHandler answeringUpstream
          (requestWith "support-operator/1.2 cluster/abc123" "Basic xyz") (HandlerState.start 0)
        = ({ w := { header := Header.empty, status := some 400, headerSent := Header.empty,
                    body := "Invalid authorization header: 'Not a bearer token: 'Basic xyz''" },
             world := 0, calls := [] }, none) ∧
      Contains "Invalid authorization header: 'Not a bearer token: 'Basic xyz''" "Basic xyz" ∧
      (getToken "Basic abc").2 ≠ (getToken "Basic xyz").2 := by
  refine ⟨by decide, by decide, ?_, by decide, by decide⟩
  rw [(RootHandler_rejects_bad_input answeringUpstream
    (requestWith "support-operator/1.2 cluster/abc123" "Basic xyz") 0).2 "abc123" ""
    "Not a bearer token: 'Basic xyz'" (by rw [requestWith_user_agent]; decide)
    (by rw [requestWith_authorization]; decide)]
  rfl

/-- C9, amended: for a rejected Authorization header `h`, the error of `getToken`
is `Not a bearer token: 'h'` and, when the user agent is accepted, the handler
answers 400 with the body `Invalid authorization header: 'Not a bearer token: 'h''`
without calling the exchanger; both texts contain `h`, and another header gets the
same error only if it equals `h`; a header `Bearer ` ++ t gets no error. -/
theorem getToken_rejected_message {ι σ : Type} (env : Collaborators ι σ) (r : Request)
    (world : σ) (clusterID h : String) (hn : ¬ ∃ t : String, h = "Bearer " ++ t)
    (hua : getClusterID (r.Header.Get "user-agent") = .ok (clusterID, none))
    (hauth : r.Header.Get "Authorization" = h) :
    getToken h = ("", some ("Not a bearer token: '" ++ h ++ "'")) ∧
      Contains ("Not a bearer token: '" ++ h ++ "'") h ∧
      RootHandler env r (HandlerState.start world)
        = ({ w := { header := Header.empty, status := some 400, headerSent := Header.empty,
                    body := "Invalid authorization header: '"
                      ++ ("Not a bearer token: '" ++ h ++ "'") ++ "'" },
             world := world, calls := [] }, none) ∧
      Contains ("Invalid authorization header: '" ++ ("Not a bearer token: '" ++ h ++ "'") ++ "'")
        h ∧
      (∀ h2 : String, (getToken h2).2 = (getToken h).2 → h2 = h) ∧
      ∀ t : String, (getToken ("Bearer " ++ t)).2 = none := by
  have hg := getToken_rejected h hn
  refine ⟨hg, Contains_middle _ _ _, ?_, ?_, ?_, fun t => ?_⟩
  · exact (RootHandler_rejects_bad_input env r world).2 clusterID "" _ hua (by rw [hauth, hg])
  · exact ⟨"Invalid authorization header: '".data ++ "Not a bearer token: '".data,
      "'".data ++ "'".data, by simp⟩
  · intro h2 he
    rw [hg] at he
    by_cases hp : HasPrefix h2 "Bearer " = true
    · simp [getToken, hp] at he
    · simp only [getToken, hp, Bool.not_false, if_true, Option.some.injEq] at he
      have hd := congrArg String.data he
      simp only [String.data_append] at hd
      exact String.ext (List.append_cancel_left (List.append_cancel_right hd))
  · simp [getToken, HasPrefix_append]

/-- C9 amended, at the rejected header `Basic xyz`. -/
theorem getToken_rejected_message_witness :
    (¬ ∃ t : String, "Basic xyz" = "Bearer " ++ t) ∧
      getToken "Basic xyz" = ("", some ("Not a bearer token: '" ++ "Basic xyz" ++ "'")) ∧
      (RootHandler refusingUpstream
          (requestWith "support-operator/1.2 cluster/abc123" "Basic xyz")
          (HandlerState.start 0)).1.w.status = some 400 :=
  have hn : ¬ ∃ t : String, "Basic xyz" = "Bearer " ++ t := by
    rintro ⟨t, ht⟩
    have := (HasPrefix_iff "Basic xyz" "Bearer ").2 ⟨t, ht⟩
    revert this
    decide
  have h := getToken_rejected_message refusingUpstream
    (requestWith "support-operator/1.2 cluster/abc123" "Basic xyz") 0 "abc123" "Basic xyz" hn
    (by rw [requestWith_user_agent]; decide) (requestWith_authorization _ _)
  ⟨hn, h.1, by rw [h.2.2.1]⟩

/-! ## The claim on `HTTPWrapper.AddHeaders` -/

/-- What `AddHeaders` does to an initialised header map `m`: it returns the
request with a map that holds the values of `m` followed by `Bearer T` under
`Authorization`, followed by `application/json` under `Accept` and under
`Content-Type`, and the values of `m` under every other key. -/
theorem AddHeaders_map (c : HTTPWrapper) (m : Header) :
    ∃ m1 : Header, c.AddHeaders { Header := .map m } = .ok { Header := .map m1 } ∧
      m1 "Authorization" = m "Authorization" ++ ["Bearer " ++ c.Token] ∧
      m1 "Accept" = m "Accept" ++ ["application/json"] ∧
      m1 "Content-Type" = m "Content-Type" ++ ["application/json"] ∧
      ∀ k : String, k ≠ "Authorization" → k ≠ "Accept" → k ≠ "Content-Type" → m1 k = m k := by
  have h1 : CanonicalMIMEHeaderKey "Authorization" = "Authorization" := by decide
  have h2 : CanonicalMIMEHeaderKey "Accept" = "Accept" := by decide
  have h3 : CanonicalMIMEHeaderKey "Content-Type" = "Content-Type" := by decide
  have n1 : ¬ "Authorization" = "Accept" := by decide
  have n2 : ¬ "Authorization" = "Content-Type" := by decide
  have n3 : ¬ "Accept" = "Content-Type" := by decide
  have n4 : ¬ "Accept" = "Authorization" := by decide
  have n5 : ¬ "Content-Type" = "Authorization" := by decide
  have n6 : ¬ "Content-Type" = "Accept" := by decide
  refine ⟨((m.Add "Authorization" ("Bearer " ++ c.Token)).Add "Accept" "application/json").Add
    "Content-Type" "application/json", rfl, ?_, ?_, ?_, ?_⟩
  · simp [Header.Add, h1, h2, h3, n1, n2]
  · simp [Header.Add, h1, h2, h3, n3, n4]
  · simp [Header.Add, h1, h2, h3, n5, n6]
  · intro k k1 k2 k3
    simp [Header.Add, h1, h2, h3, k1, k2, k3]

/-- C10: `AddHeaders` does not set the three headers, it appends to them. On a
request whose header map is nil the first `Add` panics. On a request with an
initialised map, `Bearer T` goes behind the values already under `Authorization`
and `application/json` behind those under `Accept` and `Content-Type`, every
other key keeps its values, and each of the three headers afterwards reads as
its earlier first value when it had one: it reads `Bearer T`, respectively
`application/json`, only when the request carried no value for it. -/
theorem AddHeaders_appends (c : HTTPWrapper) (req : Request) :
    (req.Header = .nil → c.AddHeaders req = .error .nilMapAssignment) ∧
      ∀ m : Header, req.Header = .map m →
        ∃ m1 : Header, c.AddHeaders req = .ok { Header := .map m1 } ∧
          m1 "Authorization" = m "Authorization" ++ ["Bearer " ++ c.Token] ∧
          m1 "Accept" = m "Accept" ++ ["application/json"] ∧
          m1 "Content-Type" = m "Content-Type" ++ ["application/json"] ∧
          (∀ k : String, k ≠ "Authorization" → k ≠ "Accept" → k ≠ "Content-Type" →
            m1 k = m k) ∧
          m1.Get "Authorization" = (m "Authorization" ++ ["Bearer " ++ c.Token]).headD "" ∧
          m1.Get "Accept" = (m "Accept" ++ ["application/json"]).headD "" ∧
          m1.Get "Content-Type" = (m "Content-Type" ++ ["application/json"]).headD "" ∧
          (∀ v : String, ∀ vs : List String, m "Authorization" = v :: vs →
            m1.Get "Authorization" = v) ∧
          (m "Authorization" = [] → m "Accept" = [] → m "Content-Type" = [] →
            m1.Get "Authorization" = "Bearer " ++ c.Token ∧
            m1.Get "Accept" = "application/json" ∧
            m1.Get "Content-Type" = "application/json") := by
  have h1 : CanonicalMIMEHeaderKey "Authorization" = "Authorization" := by decide
  have h2 : CanonicalMIMEHeaderKey "Accept" = "Accept" := by decide
  have h3 : CanonicalMIMEHeaderKey "Content-Type" = "Content-Type" := by decide
  have hget : ∀ (f : Header) (k : String), f.Get k = (f (CanonicalMIMEHeaderKey k)).headD "" := by
    intro f k
    unfold Header.Get
    cases f (CanonicalMIMEHeaderKey k) <;> rfl
  obtain ⟨hd⟩ := req
  constructor
  · intro hn
    simp only at hn
    subst hn
    rfl
  · intro m hm
    simp only at hm
    subst hm
    obtain ⟨m1, e, a1, a2, a3, a4⟩ := AddHeaders_map c m
    refine ⟨m1, e, a1, a2, a3, a4, ?_, ?_, ?_, ?_, ?_⟩
    · rw [hget, h1, a1]
    · rw [hget, h2, a2]
    · rw [hget, h3, a3]
    · intro v vs hv
      rw [hget, h1, a1, hv]
      rfl
    · intro e1 e2 e3
      rw [hget, hget, hget, h1, h2, h3, a1, a2, a3, e1, e2, e3]
      exact ⟨rfl, rfl, rfl⟩

/-- C10 at the request that already carries `Authorization: Bearer old` and
`X-Trace: 7`, with token `T`: afterwards `Authorization` still reads
`Bearer old`, not `Bearer T`, its values are `Bearer old` then `Bearer T`, and
`X-Trace` is unchanged; and at the zero-value request, where the call panics. -/
theorem AddHeaders_appends_witness :
    ((HTTPWrapper.mk "T").AddHeaders authorizedRequest).map
        (fun r => r.Header.Get "Authorization") = .ok "Bearer old" ∧
      ((HTTPWrapper.mk "T").AddHeaders authorizedRequest).map
        (fun r => r.Header.Get "Authorization") ≠ .ok "Bearer T" ∧
      ((HTTPWrapper.mk "T").AddHeaders authorizedRequest).map
        (fun r => r.Header.Values "Authorization") = .ok ["Bearer old", "Bearer T"] ∧
      ((HTTPWrapper.mk "T").AddHeaders authorizedRequest).map
        (fun r => r.Header.Values "X-Trace") = .ok ["7"] ∧
      (HTTPWrapper.mk "T").AddHeaders { Header := .nil } = .error .nilMapAssignment :=
  ⟨by decide, by decide, by decide, by decide,
    (AddHeaders_appends (HTTPWrapper.mk "T") { Header := .nil }).1 rfl⟩

end UhcAuthProxy
